import Mathlib

/-!
Shallow embedding of the GoPro USB camera client (`gopro_usb.py`) and
verification of its specification.

Modelling conventions:
* An HTTP GET issued through `requests.Session.get` either raises a
  transport-level exception or yields a response with a numeric status code
  and a (pre-parsed) body; `HttpResult` captures both cases, one value per
  GET the operation performs, supplied in program order (oracles indexed by
  call number stand for the camera's successive answers).
* Python exceptions are `GoError` values travelling in `Except`; a bare
  `session.get` maps to `sessionFetch`, `session.get` followed by
  `response.raise_for_status()` maps to `requestRaise` (which raises for
  status codes 400..599, as `requests` does).
* A `try ... except Exception: return False` block maps to a `pyCatch*`
  wrapper around the error-propagating body.
* The JSON state snapshot keeps its two string-keyed maps as association
  lists; `dictGet` is Python's `dict.get(key, default)`.
* `time.sleep` calls are recorded as a list of sleep durations in
  milliseconds, and wall-clock time in polling loops advances by exactly the
  slept amount (fetches are instantaneous in this time model).
* The instance attribute `self._last_status` is threaded explicitly as a
  `CacheVal` argument and result.
-/

namespace GoProUSB

/-- A scalar JSON value as stored in the state maps (ints, or the string
defaults such as "N/A" that the monitoring code passes around). -/
inductive JVal where
  | num : Int → JVal
  | str : String → JVal
deriving DecidableEq, Repr

/-- Python `d.get(k, dflt)` over an association-list dictionary. -/
def dictGet (d : List (String × JVal)) (k : String) (dflt : JVal) : JVal :=
  (d.lookup k).getD dflt

/-- Python `v == n` for a map value against an int literal: ints compare
numerically, strings are never equal to an int. -/
def pyEqInt (v : JVal) (n : Int) : Bool :=
  match v with
  | .num m => m == n
  | .str _ => false

/-- Python `v != n` for a map value against an int literal. -/
def pyNeInt (v : JVal) (n : Int) : Bool :=
  match v with
  | .num m => m != n
  | .str _ => true

/-- The parsed body of `/gopro/camera/state`: a `status` map and a
`settings` map, both sparse and keyed by decimal-digit strings. -/
structure StateSnapshot where
  status : List (String × JVal)
  settings : List (String × JVal)
deriving DecidableEq, Repr

/-- Outcome of one `session.get`: a raised transport exception, or a
response with its status code and parsed body. -/
inductive HttpResult (α : Type) where
  | transportError : HttpResult α
  | ok : Nat → α → HttpResult α
deriving DecidableEq, Repr

/-- A Python exception reaching an operation boundary. -/
inductive GoError where
  | transport
  | httpStatus : Nat → GoError
  | jsonDecode
  | indexOut
  | ioFail
deriving DecidableEq, Repr

/-- `requests.Response.raise_for_status` raises for 400 <= code < 600. -/
def raisesStatus (c : Nat) : Bool :=
  400 ≤ c && c < 600

/-- `self.session.get(url)` alone: raises only on transport failure,
otherwise hands back the response (status code and body). -/
def sessionFetch (r : HttpResult α) : Except GoError (Nat × α) :=
  match r with
  | .transportError => .error .transport
  | .ok c a => .ok (c, a)

/-- `self.session.get(url)` followed by `response.raise_for_status()`:
raises on transport failure or an error status, else yields the body. -/
def requestRaise (r : HttpResult α) : Except GoError α :=
  match r with
  | .transportError => .error .transport
  | .ok c a => if raisesStatus c then .error (.httpStatus c) else .ok a

/-- The `self._last_status` attribute: `{}` right after `__init__`, or the
snapshot most recently stored by `get_state`. -/
inductive CacheVal where
  | emptyDict
  | snap : StateSnapshot → CacheVal
deriving DecidableEq, Repr

/-- `__init__`: `self.base_url = f'http://172.2{sn[-3]}.1{sn[-2:]}.51'`.
`sn[-3]` is the character at index `len - 3`, `sn[-2:]` the final two
characters. -/
def baseUrl (sn : String) : String :=
  "http://172.2" ++ String.mk ((sn.data.drop (sn.data.length - 3)).take 1)
    ++ ".1" ++ String.mk (sn.data.drop (sn.data.length - 2)) ++ ".51"

/-- `get_state`: GET `/gopro/camera/state`, `raise_for_status`, then store
the parsed body in `self._last_status` and return it.  Exceptions
propagate (there is no `try` here), and on an exception the cache is left
as it was (the assignment is never reached). -/
def get_state (cache : CacheVal) (r : HttpResult StateSnapshot) :
    Except GoError StateSnapshot × CacheVal :=
  match requestRaise r with
  | .error e => (.error e, cache)
  | .ok s => (.ok s, .snap s)

/-- `is_busy`: fresh `get_state`, then `state['status'].get('8', 0) != 0`.
No `try`: a failing fetch propagates. -/
def is_busy (cache : CacheVal) (r : HttpResult StateSnapshot) :
    Except GoError Bool × CacheVal :=
  match get_state cache r with
  | (.error e, c) => (.error e, c)
  | (.ok s, c) => (.ok (pyNeInt (dictGet s.status "8" (.num 0)) 0), c)

/-- `is_encoding`: fresh `get_state`, then
`state['status'].get('10', 0) != 0`.  No `try`: a failing fetch
propagates. -/
def is_encoding (cache : CacheVal) (r : HttpResult StateSnapshot) :
    Except GoError Bool × CacheVal :=
  match get_state cache r with
  | (.error e, c) => (.error e, c)
  | (.ok s, c) => (.ok (pyNeInt (dictGet s.status "10" (.num 0)) 0), c)

end GoProUSB

namespace GoProUSB

/-- Claim statement helper: the fetch succeeds end to end (transport plus
`raise_for_status`) and delivers snapshot `s`. -/
def fetchGives (r : HttpResult StateSnapshot) (s : StateSnapshot) : Prop :=
  requestRaise r = .ok s

/-- The lookup table of `_get_resolution_name`. -/
def resolutionTable : List (Int × String) :=
  [(1, "4K"), (4, "2.7K"), (6, "2.7K 4:3"), (7, "1440p"), (9, "1080p"),
   (18, "4K 4:3"), (24, "5K"), (25, "5K 4:3"), (100, "5.3K")]

/-- Python `str(v)` for a map value, as used inside the f-strings. -/
def JVal.render : JVal → String
  | .num n => toString n
  | .str s => s

/-- Python `table.get(v, default)` where the table keys are ints: a string
key never matches an int-keyed table. -/
def tableLookup (t : List (Int × String)) (v : JVal) : Option String :=
  match v with
  | .num n => t.lookup n
  | .str _ => none

/-- `_get_resolution_name`: table lookup with an `Unknown (<id>)` fallback,
total over every possible value (absent keys arrive as the caller's
default and fall through to the sentinel). -/
def _get_resolution_name (resId : JVal) : String :=
  match tableLookup resolutionTable resId with
  | some name => name
  | none => "Unknown (" ++ JVal.render resId ++ ")"

/-- `try ... except Exception: return False` around a boolean body that is
also threading the `_last_status` cache. -/
def pyCatchFalseC (x : Except GoError Bool × CacheVal) :
    Except GoError Bool × CacheVal :=
  match x with
  | (.error _, c) => (.ok false, c)
  | r => r

/-- `try ... except Exception: return False` around a boolean body with no
cache interaction. -/
def pyCatchFalse (x : Except GoError Bool) : Except GoError Bool :=
  match x with
  | .error _ => .ok false
  | r => r

/-- Equality of `Except` results is decidable when both components are. -/
instance instDecEqExcept [DecidableEq ε] [DecidableEq α] :
    DecidableEq (Except ε α) := fun x y =>
  match x, y with
  | .error a, .error b => decidable_of_iff (a = b) (by simp)
  | .error _, .ok _ => isFalse (fun h => Except.noConfusion h)
  | .ok _, .error _ => isFalse (fun h => Except.noConfusion h)
  | .ok a, .ok b => decidable_of_iff (a = b) (by simp)

/-- The outcome, sleep trace (milliseconds) and number of `get_state`
fetches performed by one run of a recording-control operation. -/
structure OpRun where
  outcome : Except GoError Bool
  sleepsMs : List Nat
  fetches : Nat
deriving DecidableEq, Repr

/-- `try/except` wrapper for an operation reported through `OpRun`. -/
def pyCatchRun (x : OpRun × CacheVal) : OpRun × CacheVal :=
  match x with
  | (⟨.error _, sl, f⟩, c) => (⟨.ok false, sl, f⟩, c)
  | r => r

/-- `record_start` body: GET `/gopro/camera/shutter/start` with
`raise_for_status`, `time.sleep(0.5)`, fresh `get_state`, then succeed
exactly when `state['status'].get('10', 0) == 1`. -/
def record_start_body (cache : CacheVal) (shutter : HttpResult Unit)
    (fetch : HttpResult StateSnapshot) : OpRun × CacheVal :=
  match requestRaise shutter with
  | .error e => (⟨.error e, [], 0⟩, cache)
  | .ok _ =>
    match get_state cache fetch with
    | (.error e, c) => (⟨.error e, [500], 1⟩, c)
    | (.ok s, c) =>
      (⟨.ok (pyEqInt (dictGet s.status "10" (.num 0)) 1), [500], 1⟩, c)

/-- `record_start`: the body under its `try/except Exception: return
False`. -/
def record_start (cache : CacheVal) (shutter : HttpResult Unit)
    (fetch : HttpResult StateSnapshot) : OpRun × CacheVal :=
  pyCatchRun (record_start_body cache shutter fetch)

/-- The confirmation loop of `record_stop`: `for attempt in range(5)`,
sleeping 1.0s on the first attempt and 0.5s after, fetching state and
returning `True` as soon as `status.get('10', 0) == 0`; once the loop is
exhausted a final un-slept `get_state` is performed and the call returns
`True` whether or not the flag cleared (both branches of the final `if`
return `True`). `i` is the index of the next fetch, `fuel` the loop
iterations left. -/
def record_stop_poll (cache : CacheVal) (oracle : Nat → HttpResult StateSnapshot)
    (i : Nat) : Nat → OpRun × CacheVal
  | 0 =>
    match get_state cache (oracle i) with
    | (.error e, c) => (⟨.error e, [], 1⟩, c)
    | (.ok _, c) => (⟨.ok true, [], 1⟩, c)
  | fuel + 1 =>
    let slp := if i == 0 then 1000 else 500
    match get_state cache (oracle i) with
    | (.error e, c) => (⟨.error e, [slp], 1⟩, c)
    | (.ok s, c) =>
      if pyEqInt (dictGet s.status "10" (.num 0)) 0 then
        (⟨.ok true, [slp], 1⟩, c)
      else
        let rest := record_stop_poll c oracle (i + 1) fuel
        (⟨rest.1.outcome, slp :: rest.1.sleepsMs, 1 + rest.1.fetches⟩, rest.2)

/-- `record_stop` body: GET `/gopro/camera/shutter/stop` with
`raise_for_status`, then the bounded confirmation loop (5 attempts plus
the final check). -/
def record_stop_body (cache : CacheVal) (shutter : HttpResult Unit)
    (oracle : Nat → HttpResult StateSnapshot) : OpRun × CacheVal :=
  match requestRaise shutter with
  | .error e => (⟨.error e, [], 0⟩, cache)
  | .ok _ => record_stop_poll cache oracle 0 5

/-- `record_stop`: the body under its `try/except Exception: return
False`. -/
def record_stop (cache : CacheVal) (shutter : HttpResult Unit)
    (oracle : Nat → HttpResult StateSnapshot) : OpRun × CacheVal :=
  pyCatchRun (record_stop_body cache shutter oracle)

/-- `usb_enable`: bare `session.get` on
`/gopro/camera/control/wired_usb?p=1`; the response is returned without
any status check, so only transport failures raise. -/
def usb_enable (r : HttpResult Unit) : Except GoError Nat :=
  match sessionFetch r with
  | .error e => .error e
  | .ok (c, _) => .ok c

/-- `usb_disable`: bare `session.get` on
`/gopro/camera/control/wired_usb?p=0`. -/
def usb_disable (r : HttpResult Unit) : Except GoError Nat :=
  match sessionFetch r with
  | .error e => .error e
  | .ok (c, _) => .ok c

/-- `set_control_external`: bare `session.get` on
`/gopro/camera/control/set_ui_controller?p=2`. -/
def set_control_external (r : HttpResult Unit) : Except GoError Nat :=
  match sessionFetch r with
  | .error e => .error e
  | .ok (c, _) => .ok c

/-- `mode_video`: bare `session.get` on
`/gopro/camera/presets/set_group?id=1000`; the response is returned as is
and transport failures propagate. -/
def mode_video (r : HttpResult Unit) : Except GoError Nat :=
  match sessionFetch r with
  | .error e => .error e
  | .ok (c, _) => .ok c

/-- `mode_photo`: bare `session.get` on
`/gopro/camera/presets/set_group?id=1001`; the response is returned as is
and transport failures propagate. -/
def mode_photo (r : HttpResult Unit) : Except GoError Nat :=
  match sessionFetch r with
  | .error e => .error e
  | .ok (c, _) => .ok c

/-- `mode_timelapse`: bare `session.get` on
`/gopro/camera/presets/set_group?id=1002`; the response is returned as is
and transport failures propagate. -/
def mode_timelapse (r : HttpResult Unit) : Except GoError Nat :=
  match sessionFetch r with
  | .error e => .error e
  | .ok (c, _) => .ok c

/-- `power_on` body: `usb_enable()`, `time.sleep(1)`,
`set_control_external()`, `time.sleep(0.5)`, then a verifying
`get_state()`; reaching the end returns `True`. -/
def power_on_body (cache : CacheVal) (r1 r2 : HttpResult Unit)
    (r3 : HttpResult StateSnapshot) : OpRun × CacheVal :=
  match usb_enable r1 with
  | .error e => (⟨.error e, [], 0⟩, cache)
  | .ok _ =>
    match set_control_external r2 with
    | .error e => (⟨.error e, [1000], 0⟩, cache)
    | .ok _ =>
      match get_state cache r3 with
      | (.error e, c) => (⟨.error e, [1000, 500], 1⟩, c)
      | (.ok _, c) => (⟨.ok true, [1000, 500], 1⟩, c)

/-- `power_on`: the body under its `try/except Exception: return False`. -/
def power_on (cache : CacheVal) (r1 r2 : HttpResult Unit)
    (r3 : HttpResult StateSnapshot) : OpRun × CacheVal :=
  pyCatchRun (power_on_body cache r1 r2 r3)

/-- `power_off`: `usb_disable()` under `try/except Exception: return
False`; no status check, so any 2xx-or-not response yields `True`. -/
def power_off (r : HttpResult Unit) : Except GoError Bool :=
  pyCatchFalse (match usb_disable r with
    | .error e => .error e
    | .ok _ => .ok true)

/-- `start_preview`: GET `/gopro/webcam/start` with `raise_for_status`
under `try/except Exception: return False`; the 2-second settle sleep and
the stream-URL string computed from `base_url` do not affect the returned
value. -/
def start_preview (r : HttpResult Unit) : Except GoError Bool :=
  pyCatchFalse (match requestRaise r with
    | .error e => .error e
    | .ok _ => .ok true)

/-- `stop_preview`: GET `/gopro/webcam/stop` with `raise_for_status`
under `try/except Exception: return False`; the 1-second sleep does not
affect the returned value. -/
def stop_preview (r : HttpResult Unit) : Except GoError Bool :=
  pyCatchFalse (match requestRaise r with
    | .error e => .error e
    | .ok _ => .ok true)

/-- `wait_until_ready` loop: `while time.time() - start_time < timeout`,
check `is_busy()` and (only when not busy, by Python `and`
short-circuiting) `is_encoding()`; return `True` when both are false,
else `time.sleep(0.5)` and iterate; `False` once the timeout elapses.
Time model: the elapsed time at iteration `k` is the `k` half-second
sleeps performed so far, so the loop guard is `500 * k < timeoutMs`.
`oB k` and `oE k` are the camera's answers to iteration `k`'s busy fetch
and encoding fetch; errors propagate (no `try` in the source). -/
def wait_until_ready_loop (timeoutMs : Nat)
    (oB oE : Nat → HttpResult StateSnapshot) (cache : CacheVal) (k : Nat) :
    Except GoError Bool × CacheVal :=
  if _h : 500 * k < timeoutMs then
    match is_busy cache (oB k) with
    | (.error e, c) => (.error e, c)
    | (.ok true, c) => wait_until_ready_loop timeoutMs oB oE c (k + 1)
    | (.ok false, c) =>
      match is_encoding c (oE k) with
      | (.error e, c2) => (.error e, c2)
      | (.ok false, c2) => (.ok true, c2)
      | (.ok true, c2) => wait_until_ready_loop timeoutMs oB oE c2 (k + 1)
  else
    (.ok false, cache)
  termination_by timeoutMs - 500 * k
  decreasing_by
    all_goals omega

/-- `wait_until_ready(timeout)` from the start of the call. -/
def wait_until_ready (timeoutMs : Nat)
    (oB oE : Nat → HttpResult StateSnapshot) (cache : CacheVal) :
    Except GoError Bool × CacheVal :=
  wait_until_ready_loop timeoutMs oB oE cache 0

/-- A bare `session.get` whose `Response` object is handed back to the
caller unchanged: the shape shared by every wrapper that neither calls
`raise_for_status` nor catches exceptions. -/
def plainResponseGet (r : HttpResult Unit) : Except GoError Nat :=
  match sessionFetch r with
  | .error e => .error e
  | .ok (c, _) => .ok c

/-- A `raise_for_status`-checked GET under `try/except Exception: return
False`: the shape shared by `set_resolution_5_3k`, `set_fps_240` and
`set_lens_linear`. -/
def checkedBoolGet (r : HttpResult Unit) : Except GoError Bool :=
  pyCatchFalse (match requestRaise r with
    | .error e => .error e
    | .ok _ => .ok true)

/-- `set_resolution_5_3k`: checked GET, boolean result. -/
def set_resolution_5_3k (r : HttpResult Unit) : Except GoError Bool :=
  checkedBoolGet r

/-- URL of `set_resolution_5_3k`. -/
def set_resolution_5_3k_url (base : String) : String :=
  base ++ "/gopro/camera/setting?setting=2&option=100"

/-- `set_resolution_5k`: bare GET, `Response` result. -/
def set_resolution_5k (r : HttpResult Unit) : Except GoError Nat :=
  plainResponseGet r

/-- URL of `set_resolution_5k`. -/
def set_resolution_5k_url (base : String) : String :=
  base ++ "/gopro/camera/setting?setting=2&option=24"

/-- `set_resolution_4k`: bare GET, `Response` result. -/
def set_resolution_4k (r : HttpResult Unit) : Except GoError Nat :=
  plainResponseGet r

/-- URL of `set_resolution_4k`. -/
def set_resolution_4k_url (base : String) : String :=
  base ++ "/gopro/camera/setting?setting=2&option=1"

/-- `set_resolution_2_7k`: bare GET, `Response` result. -/
def set_resolution_2_7k (r : HttpResult Unit) : Except GoError Nat :=
  plainResponseGet r

/-- URL of `set_resolution_2_7k`. -/
def set_resolution_2_7k_url (base : String) : String :=
  base ++ "/gopro/camera/setting?setting=2&option=4"

/-- `set_resolution_1080`: bare GET, `Response` result. -/
def set_resolution_1080 (r : HttpResult Unit) : Except GoError Nat :=
  plainResponseGet r

/-- URL of `set_resolution_1080`. -/
def set_resolution_1080_url (base : String) : String :=
  base ++ "/gopro/camera/setting?setting=2&option=9"

/-- `set_fps_240`: checked GET, boolean result. -/
def set_fps_240 (r : HttpResult Unit) : Except GoError Bool :=
  checkedBoolGet r

/-- URL of `set_fps_240`. -/
def set_fps_240_url (base : String) : String :=
  base ++ "/gopro/camera/setting?setting=3&option=0"

/-- `set_fps_200`: bare GET, `Response` result. -/
def set_fps_200 (r : HttpResult Unit) : Except GoError Nat :=
  plainResponseGet r

/-- URL of `set_fps_200`. -/
def set_fps_200_url (base : String) : String :=
  base ++ "/gopro/camera/setting?setting=3&option=13"

/-- `set_fps_120`: bare GET, `Response` result. -/
def set_fps_120 (r : HttpResult Unit) : Except GoError Nat :=
  plainResponseGet r

/-- URL of `set_fps_120`. -/
def set_fps_120_url (base : String) : String :=
  base ++ "/gopro/camera/setting?setting=3&option=1"

/-- `set_fps_60`: bare GET, `Response` result. -/
def set_fps_60 (r : HttpResult Unit) : Except GoError Nat :=
  plainResponseGet r

/-- URL of `set_fps_60`. -/
def set_fps_60_url (base : String) : String :=
  base ++ "/gopro/camera/setting?setting=3&option=5"

/-- `set_fps_30`: bare GET, `Response` result. -/
def set_fps_30 (r : HttpResult Unit) : Except GoError Nat :=
  plainResponseGet r

/-- URL of `set_fps_30`. -/
def set_fps_30_url (base : String) : String :=
  base ++ "/gopro/camera/setting?setting=3&option=8"

/-- `set_fps_24`: bare GET, `Response` result. -/
def set_fps_24 (r : HttpResult Unit) : Except GoError Nat :=
  plainResponseGet r

/-- URL of `set_fps_24`. -/
def set_fps_24_url (base : String) : String :=
  base ++ "/gopro/camera/setting?setting=3&option=10"

/-- `set_lens_linear`: checked GET, boolean result. -/
def set_lens_linear (r : HttpResult Unit) : Except GoError Bool :=
  checkedBoolGet r

/-- URL of `set_lens_linear`. -/
def set_lens_linear_url (base : String) : String :=
  base ++ "/gopro/camera/setting?setting=121&option=4"

/-- `set_lens_wide`: bare GET, `Response` result. -/
def set_lens_wide (r : HttpResult Unit) : Except GoError Nat :=
  plainResponseGet r

/-- URL of `set_lens_wide`. -/
def set_lens_wide_url (base : String) : String :=
  base ++ "/gopro/camera/setting?setting=121&option=0"

/-- `set_lens_narrow`: bare GET, `Response` result. -/
def set_lens_narrow (r : HttpResult Unit) : Except GoError Nat :=
  plainResponseGet r

/-- URL of `set_lens_narrow`. -/
def set_lens_narrow_url (base : String) : String :=
  base ++ "/gopro/camera/setting?setting=121&option=2"

/-- `set_lens_superview`: bare GET, `Response` result. -/
def set_lens_superview (r : HttpResult Unit) : Except GoError Nat :=
  plainResponseGet r

/-- URL of `set_lens_superview`. -/
def set_lens_superview_url (base : String) : String :=
  base ++ "/gopro/camera/setting?setting=121&option=3"

/-- `set_lens_max_superview`: bare GET, `Response` result. -/
def set_lens_max_superview (r : HttpResult Unit) : Except GoError Nat :=
  plainResponseGet r

/-- URL of `set_lens_max_superview`. -/
def set_lens_max_superview_url (base : String) : String :=
  base ++ "/gopro/camera/setting?setting=121&option=7"

/-- `set_lens_linear_horizon`: bare GET, `Response` result. -/
def set_lens_linear_horizon (r : HttpResult Unit) : Except GoError Nat :=
  plainResponseGet r

/-- URL of `set_lens_linear_horizon`. -/
def set_lens_linear_horizon_url (base : String) : String :=
  base ++ "/gopro/camera/setting?setting=121&option=8"

/-- Modelled from the spec: the generic `changeSetting(settingID,
optionID)` operation, which the repository does not define as a function
of its own (each wrapper inlines its URL).  Spec: issues the single GET
encoding both IDs as query parameters, returns boolean success based on
HTTP status, absorbs failures at its own boundary. -/
def changeSetting (settingID optionID : Nat) (r : HttpResult Unit) :
    Except GoError Bool :=
  match settingID, optionID, r with
  | _, _, .transportError => .ok false
  | _, _, .ok c _ => .ok (!raisesStatus c)

/-- Modelled from the spec: the URL `changeSetting` issues, with both IDs
as query parameters. -/
def changeSettingUrl (base : String) (settingID optionID : Nat) : String :=
  base ++ ("/gopro/camera/setting?setting=" ++ toString settingID
    ++ "&option=" ++ toString optionID)

/-- The observable result of one settings call, for comparing a wrapper
against `changeSetting`: a boolean verdict or a raw `Response`. -/
inductive OpOutcome where
  | asBool : Bool → OpOutcome
  | asResp : Nat → OpOutcome
deriving DecidableEq, Repr

/-- View a boolean-returning settings call as an `OpOutcome` run. -/
def boolRun (f : HttpResult Unit → Except GoError Bool)
    (r : HttpResult Unit) : Except GoError OpOutcome :=
  (f r).map OpOutcome.asBool

/-- View a `Response`-returning settings call as an `OpOutcome` run. -/
def respRun (f : HttpResult Unit → Except GoError Nat)
    (r : HttpResult Unit) : Except GoError OpOutcome :=
  (f r).map OpOutcome.asResp

end GoProUSB

namespace GoProUSB

/-- One entry of the `fs` array of a media-list directory. -/
structure MediaFile where
  n : String
deriving DecidableEq, Repr

/-- One entry of the `media` array of `/gopro/media/list`. -/
structure MediaDir where
  d : String
  fs : List MediaFile
deriving DecidableEq, Repr

/-- `get_media_list`: bare `session.get` on `/gopro/media/list`; the body
is parsed later with `.json()`, and a body that does not parse to the
expected shape is `none`. -/
def get_media_list (r : HttpResult (Option (List MediaDir))) :
    Except GoError (Nat × Option (List MediaDir)) :=
  sessionFetch r

/-- `ml.json()['media']`: parse the media-list body, raising
`jsonDecode` when the body is not the expected JSON document. -/
def mlJson (r : HttpResult (Option (List MediaDir))) :
    Except GoError (List MediaDir) :=
  match get_media_list r with
  | .error e => .error e
  | .ok (_, none) => .error .jsonDecode
  | .ok (_, some m) => .ok m

/-- `while self.is_encoding(): time.sleep(1)` at the top of
`download_last_media`: keep fetching until the encoding flag is clear.
`none` means the loop is still running after `fuel` iterations (the
source loop is unbounded); a raising fetch is an exception out of the
loop. -/
def enc_wait (cache : CacheVal) (oracle : Nat → HttpResult StateSnapshot)
    (i : Nat) : Nat → Option (Except GoError Unit) × CacheVal
  | 0 => (none, cache)
  | fuel + 1 =>
    match is_encoding cache (oracle i) with
    | (.error e, c) => (some (.error e), c)
    | (.ok false, c) => (some (.ok ()), c)
    | (.ok true, c) => enc_wait c oracle (i + 1) fuel

/-- Python `text.split('.')` over the character list: split at every dot,
keeping empty pieces, with `[""]` for the empty string. -/
def splitDots : List Char → List (List Char)
  | [] => [[]]
  | c :: cs =>
    let rest := splitDots cs
    if c = '.' then [] :: rest
    else
      match rest with
      | r :: rs => (c :: r) :: rs
      | [] => [[c]]

/-- Python `name.split('.')[-1]`: the text after the last dot, or the
whole name when it has no dot. -/
def pyExt (s : String) : String :=
  String.mk ((splitDots s.data).getLastD [])

/-- Python `name.rsplit('.', 1)[0]`: the text before the last dot, or the
whole name when it has no dot. -/
def pyStem (s : String) : String :=
  let parts := splitDots s.data
  if parts.length ≤ 1 then s
  else String.mk (List.intercalate ['.'] parts.dropLast)

/-- The download URL `f"{base_url}/videos/DCIM/{last_dir}/{last_file}"`. -/
def downloadUrl (base dir file : String) : String :=
  base ++ "/videos/DCIM/" ++ dir ++ "/" ++ file

/-- What one run of `download_last_media` did: its outcome, the
`(last_dir, last_file)` pair it selected from the listing (when it got
that far) and the local filename it wrote (when the download ran). -/
structure DownloadRun where
  outcome : Except GoError Bool
  chosen : Option (String × String)
  savedAs : Option String
deriving DecidableEq, Repr

/-- `download_last_media` body: wait out encoding, fetch and parse the
media list, `return False` on an empty list, select
`media[-1]['d']` and `media[-1]['fs'][-1]['n']` (an empty `fs` raises
`IndexError`), rewrite the destination name with the source file's
extension, then stream the download (`raise_for_status`; `ioOk = false`
stands for an I/O error while writing the file).  `none` when the
encoding wait is still running after `encFuel` fetches. -/
def download_body (cache : CacheVal)
    (encOracle : Nat → HttpResult StateSnapshot) (encFuel : Nat)
    (mediaRes : HttpResult (Option (List MediaDir)))
    (dlRes : HttpResult Unit) (ioOk : Bool) (output : String) :
    Option (DownloadRun × CacheVal) :=
  match enc_wait cache encOracle 0 encFuel with
  | (none, _) => none
  | (some (.error e), c) => some (⟨.error e, none, none⟩, c)
  | (some (.ok _), c) =>
    match mlJson mediaRes with
    | .error e => some (⟨.error e, none, none⟩, c)
    | .ok media =>
      match media.getLast? with
      | none => some (⟨.ok false, none, none⟩, c)
      | some dir =>
        match dir.fs.getLast? with
        | none => some (⟨.error .indexOut, none, none⟩, c)
        | some f =>
          let outName := pyStem output ++ "." ++ pyExt f.n
          match requestRaise dlRes with
          | .error e => some (⟨.error e, some (dir.d, f.n), none⟩, c)
          | .ok _ =>
            if ioOk then some (⟨.ok true, some (dir.d, f.n), some outName⟩, c)
            else some (⟨.error .ioFail, some (dir.d, f.n), none⟩, c)

/-- `download_last_media`: the body under its `try/except Exception:
return False`. -/
def download_last_media (cache : CacheVal)
    (encOracle : Nat → HttpResult StateSnapshot) (encFuel : Nat)
    (mediaRes : HttpResult (Option (List MediaDir)))
    (dlRes : HttpResult Unit) (ioOk : Bool) (output : String) :
    Option (DownloadRun × CacheVal) :=
  match download_body cache encOracle encFuel mediaRes dlRes ioOk output with
  | none => none
  | some (run, c) =>
    match run.outcome with
    | .error _ => some (⟨.ok false, run.chosen, run.savedAs⟩, c)
    | .ok b => some (⟨.ok b, run.chosen, run.savedAs⟩, c)

/-- Lexicographic strict order on character lists, by code point. -/
def lexLtL : List Char → List Char → Bool
  | [], [] => false
  | [], _ :: _ => true
  | _ :: _, [] => false
  | x :: xs, y :: ys =>
    if x.toNat < y.toNat then true
    else if y.toNat < x.toNat then false
    else lexLtL xs ys

/-- Lexicographic strict order on strings, by code point. -/
def lexLt (a b : String) : Bool :=
  lexLtL a.data b.data

/-- The claim's selection rule, written from its words: the
lexically-greatest element of a list of names. -/
def lexicalLast (l : List String) : Option String :=
  l.foldl (fun acc x =>
    match acc with
    | none => some x
    | some m => some (if lexLt m x then x else m)) none

end GoProUSB

namespace GoProUSB

/-- A snapshot whose recording flag (status ID 10) is set. -/
def snapRec : StateSnapshot := ⟨[("10", .num 1)], []⟩

/-- A snapshot whose recording flag (status ID 10) is clear. -/
def snapIdle : StateSnapshot := ⟨[("10", .num 0)], []⟩

/-- A snapshot with empty status and settings maps. -/
def snapBare : StateSnapshot := ⟨[], []⟩

/-- A snapshot whose busy flag (status ID 8) is present and zero. -/
def snapBusy0 : StateSnapshot := ⟨[("8", .num 0)], []⟩

/-- A snapshot whose busy flag (status ID 8) is present and one. -/
def snapBusy1 : StateSnapshot := ⟨[("8", .num 1)], []⟩

/-- A camera whose recording flag stays set for the five loop polls of
`record_stop` and whose sixth answer is a transport failure. -/
def oracleStuck : Nat → HttpResult StateSnapshot :=
  fun i => if i < 5 then .ok 200 snapRec else .transportError

/-- A two-directory listing whose positionally-last directory is not the
lexically-last one. -/
def mediaSample : List MediaDir :=
  [⟨"200GOPRO", [⟨"GOPR0001.MP4"⟩]⟩, ⟨"100GOPRO", [⟨"GOPR0002.JPG"⟩]⟩]

/-- A camera that is never encoding: the download's leading wait exits at
once. -/
def encReadyOracle : Nat → HttpResult StateSnapshot :=
  fun _ => .ok 200 snapIdle

/-- The busy flag as `is_busy` computes it. -/
def busyFlag (s : StateSnapshot) : Bool :=
  pyNeInt (dictGet s.status "8" (JVal.num 0)) 0

/-- The encoding flag as `is_encoding` computes it. -/
def encFlag (s : StateSnapshot) : Bool :=
  pyNeInt (dictGet s.status "10" (JVal.num 0)) 0

/-- `pyCatchRun` can only deliver a boolean outcome: the `except` clause
turns every exception into `False`. -/
theorem pyCatchRun_total (x : OpRun × CacheVal) :
    ∃ b, (pyCatchRun x).1.outcome = Except.ok b := by
  obtain ⟨⟨out, sl, f⟩, c⟩ := x
  cases out with
  | error e => exact ⟨false, rfl⟩
  | ok b => exact ⟨b, rfl⟩

/-- `pyCatchFalse` can only deliver a boolean outcome. -/
theorem pyCatchFalse_total (x : Except GoError Bool) :
    ∃ b, pyCatchFalse x = Except.ok b := by
  cases x with
  | error e => exact ⟨false, rfl⟩
  | ok b => exact ⟨b, rfl⟩

end GoProUSB

namespace GoProUSB

/-- Claim C1: for every serial number, construction derives the base URL by
embedding the third-from-last character and the last two characters of the
serial as literal text, deterministically; on serial "C3504224682139" the
derived base URL is `http://172.21.139.51`. -/
theorem construction_derives_base_url (p : String) (a b c : Char) :
    baseUrl (p ++ String.mk [a, b, c])
        = "http://172.2" ++ String.mk [a] ++ ".1" ++ String.mk [b, c] ++ ".51"
      ∧ baseUrl "C3504224682139" = "http://172.21.139.51" := by
  constructor
  · have hdrop3 : (p.data ++ [a, b, c]).drop (p.data.length + 3 - 3) = [a, b, c] := by
      simp [List.drop_left p.data [a, b, c]]
    have hdrop2 : (p.data ++ [a, b, c]).drop (p.data.length + 3 - 2) = [b, c] := by
      have h1 : p.data ++ [a, b, c] = (p.data ++ [a]) ++ [b, c] := by
        simp
      have h2 : p.data.length + 3 - 2 = (p.data ++ [a]).length := by
        simp
      rw [h1, h2, List.drop_left]
    have hlen : (p.data ++ [a, b, c]).length = p.data.length + 3 := by
      simp
    unfold baseUrl
    show "http://172.2"
          ++ String.mk (((p.data ++ [a, b, c]).drop ((p.data ++ [a, b, c]).length - 3)).take 1)
          ++ ".1" ++ String.mk ((p.data ++ [a, b, c]).drop ((p.data ++ [a, b, c]).length - 2))
          ++ ".51"
        = "http://172.2" ++ String.mk [a] ++ ".1" ++ String.mk [b, c] ++ ".51"
    rw [hlen, hdrop3, hdrop2]
    rfl
  · rfl

end GoProUSB

namespace GoProUSB

/-- Claim C2 counterexample: `get_state` propagates a transport failure to
its caller as an exception, and so does the setting wrapper
`set_resolution_5k`; neither converts it into a returned success
indicator. -/
theorem get_state_propagates_transport_cex :
    (get_state CacheVal.emptyDict HttpResult.transportError).1
        = Except.error GoError.transport
      ∧ set_resolution_5k HttpResult.transportError
        = Except.error GoError.transport := by
  exact ⟨rfl, rfl⟩

/-- One loop iteration of `wait_until_ready` within the timeout. -/
theorem wait_until_ready_loop_step (T : Nat)
    (oB oE : Nat → HttpResult StateSnapshot) (cache : CacheVal) (k : Nat)
    (h : 500 * k < T) :
    wait_until_ready_loop T oB oE cache k
      = (match is_busy cache (oB k) with
        | (.error e, c) => (.error e, c)
        | (.ok true, c) => wait_until_ready_loop T oB oE c (k + 1)
        | (.ok false, c) =>
          match is_encoding c (oE k) with
          | (.error e, c2) => (.error e, c2)
          | (.ok false, c2) => (.ok true, c2)
          | (.ok true, c2) => wait_until_ready_loop T oB oE c2 (k + 1)) := by
  rw [wait_until_ready_loop]
  exact dif_pos h

/-- Once the encoding wait has completed, `download_last_media` always
hands back a boolean outcome: its `try/except` absorbs every failure. -/
theorem download_last_media_absorbs (cache : CacheVal)
    (eo : Nat → HttpResult StateSnapshot) (ef : Nat)
    (mr : HttpResult (Option (List MediaDir))) (dr : HttpResult Unit)
    (io : Bool) (out : String) (run : DownloadRun) (c2 : CacheVal)
    (h : download_last_media cache eo ef mr dr io out = some (run, c2)) :
    ∃ b, run.outcome = Except.ok b := by
  rw [download_last_media] at h
  rcases hb : download_body cache eo ef mr dr io out with _ | ⟨⟨o1, ch, sv⟩, c'⟩
  · rw [hb] at h
    simp at h
  · rw [hb] at h
    cases o1 with
    | error e =>
      simp only [Option.some.injEq, Prod.mk.injEq] at h
      exact ⟨false, by rw [← h.1]⟩
    | ok b =>
      simp only [Option.some.injEq, Prod.mk.injEq] at h
      exact ⟨b, by rw [← h.1]⟩

/-- Claim C2 (amended): only the `try/except`-guarded operations —
`power_on`, `power_off`, `record_start`, `record_stop`, the three boolean
setting wrappers, `start_preview`, `stop_preview`, and (once its encoding
wait completes) `download_last_media` — absorb every HTTP outcome into a
returned boolean; `get_state`, `is_busy`, `is_encoding`,
`wait_until_ready`, the mode selectors and every plain
`Response`-returning wrapper propagate transport failures, and
`get_state` also propagates non-2xx statuses raised by
`raise_for_status`. -/
theorem boundary_error_policy_split (cache : CacheVal)
    (u sh : HttpResult Unit) (f r3 : HttpResult StateSnapshot)
    (o : Nat → HttpResult StateSnapshot) :
    (∃ b, (record_start cache sh f).1.outcome = Except.ok b)
      ∧ (∃ b, (record_stop cache sh o).1.outcome = Except.ok b)
      ∧ (∃ b, (power_on cache u sh r3).1.outcome = Except.ok b)
      ∧ (∃ b, power_off u = Except.ok b)
      ∧ (∃ b, set_resolution_5_3k u = Except.ok b)
      ∧ (∃ b, set_fps_240 u = Except.ok b)
      ∧ (∃ b, set_lens_linear u = Except.ok b)
      ∧ (∃ b, start_preview u = Except.ok b)
      ∧ (∃ b, stop_preview u = Except.ok b)
      ∧ (∀ (eo : Nat → HttpResult StateSnapshot) (ef : Nat)
          (mr : HttpResult (Option (List MediaDir))) (dr : HttpResult Unit)
          (io : Bool) (out : String) (run : DownloadRun) (c2 : CacheVal),
          download_last_media cache eo ef mr dr io out = some (run, c2) →
          ∃ b, run.outcome = Except.ok b)
      ∧ (get_state cache HttpResult.transportError).1
          = Except.error GoError.transport
      ∧ (is_busy cache HttpResult.transportError).1
          = Except.error GoError.transport
      ∧ (is_encoding cache HttpResult.transportError).1
          = Except.error GoError.transport
      ∧ (∀ (T : Nat) (oB oE : Nat → HttpResult StateSnapshot), 0 < T →
          oB 0 = HttpResult.transportError →
          (wait_until_ready T oB oE cache).1
            = Except.error GoError.transport)
      ∧ mode_video HttpResult.transportError = Except.error GoError.transport
      ∧ mode_photo HttpResult.transportError = Except.error GoError.transport
      ∧ mode_timelapse HttpResult.transportError
          = Except.error GoError.transport
      ∧ usb_enable HttpResult.transportError = Except.error GoError.transport
      ∧ set_resolution_5k HttpResult.transportError
          = Except.error GoError.transport
      ∧ set_resolution_4k HttpResult.transportError
          = Except.error GoError.transport
      ∧ set_resolution_2_7k HttpResult.transportError
          = Except.error GoError.transport
      ∧ set_resolution_1080 HttpResult.transportError
          = Except.error GoError.transport
      ∧ set_fps_200 HttpResult.transportError
          = Except.error GoError.transport
      ∧ set_fps_120 HttpResult.transportError
          = Except.error GoError.transport
      ∧ set_fps_60 HttpResult.transportError
          = Except.error GoError.transport
      ∧ set_fps_30 HttpResult.transportError
          = Except.error GoError.transport
      ∧ set_fps_24 HttpResult.transportError
          = Except.error GoError.transport
      ∧ set_lens_wide HttpResult.transportError
          = Except.error GoError.transport
      ∧ set_lens_narrow HttpResult.transportError
          = Except.error GoError.transport
      ∧ set_lens_superview HttpResult.transportError
          = Except.error GoError.transport
      ∧ set_lens_max_superview HttpResult.transportError
          = Except.error GoError.transport
      ∧ set_lens_linear_horizon HttpResult.transportError
          = Except.error GoError.transport
      ∧ (∀ c s, raisesStatus c = true →
          (get_state cache (HttpResult.ok c s)).1
            = Except.error (GoError.httpStatus c)) := by
  refine ⟨pyCatchRun_total _, pyCatchRun_total _, pyCatchRun_total _,
    pyCatchFalse_total _, pyCatchFalse_total _, pyCatchFalse_total _,
    pyCatchFalse_total _, pyCatchFalse_total _, pyCatchFalse_total _,
    fun eo ef mr dr io out run c2 h =>
      download_last_media_absorbs cache eo ef mr dr io out run c2 h,
    rfl, rfl, rfl, ?_, rfl, rfl, rfl, rfl, rfl, rfl, rfl, rfl, rfl, rfl,
    rfl, rfl, rfl, rfl, rfl, rfl, rfl, rfl, ?_⟩
  · intro T oB oE hT hB
    have h0 : 500 * 0 < T := by omega
    rw [wait_until_ready, wait_until_ready_loop_step T oB oE cache 0 h0, hB]
    rfl
  · intro c s hc
    simp [get_state, requestRaise, hc]

/-- Claim C4: `record_start` returns `True` exactly when the shutter-start
request passes `raise_for_status` and the status fetched after the fixed
0.5-second sleep has the recording flag (status ID 10) equal to 1; in
every other case it returns `False` (never an exception). -/
theorem record_start_true_iff (cache : CacheVal) (shutter : HttpResult Unit)
    (fetch : HttpResult StateSnapshot) :
    ((record_start cache shutter fetch).1.outcome = Except.ok true ↔
        requestRaise shutter = Except.ok () ∧
          ∃ s, fetchGives fetch s ∧
            pyEqInt (dictGet s.status "10" (JVal.num 0)) 1 = true)
      ∧ ((record_start cache shutter fetch).1.outcome = Except.ok true
          ∨ (record_start cache shutter fetch).1.outcome = Except.ok false)
      ∧ (requestRaise shutter = Except.ok () →
          (record_start cache shutter fetch).1.sleepsMs = [500]) := by
  refine ⟨?_, ?_, ?_⟩
  · rcases shutter with _ | ⟨c, u⟩
    · simp [record_start, record_start_body, requestRaise, pyCatchRun]
    · cases u
      rcases hc : raisesStatus c with _ | _
      · rcases fetch with _ | ⟨c2, s⟩
        · simp [record_start, record_start_body, requestRaise, pyCatchRun,
            get_state, fetchGives, hc]
        · rcases hc2 : raisesStatus c2 with _ | _
          · simp [record_start, record_start_body, requestRaise, pyCatchRun,
              get_state, fetchGives, hc, hc2]
          · simp [record_start, record_start_body, requestRaise, pyCatchRun,
              get_state, fetchGives, hc, hc2]
      · simp [record_start, record_start_body, requestRaise, pyCatchRun,
          fetchGives, hc]
  · exact (pyCatchRun_total _).elim (fun b hb => by
      rcases b with _ | _
      · exact Or.inr hb
      · exact Or.inl hb)
  · intro hsh
    rcases shutter with _ | ⟨c, u⟩
    · simp [requestRaise] at hsh
    · cases u
      rcases hc : raisesStatus c with _ | _
      · rcases fetch with _ | ⟨c2, s⟩
        · simp [record_start, record_start_body, requestRaise, pyCatchRun,
            get_state, hc]
        · rcases hc2 : raisesStatus c2 with _ | _ <;>
            simp [record_start, record_start_body, requestRaise, pyCatchRun,
              get_state, hc, hc2]
      · simp [requestRaise, hc] at hsh

end GoProUSB

namespace GoProUSB

/-- Claim C5 counterexample: `is_busy` over a snapshot with no status key
"8" answers the definite boolean `False`, exactly what it answers when the
key is present with value 0, and the opposite of what it answers for value
1 — the consumer treats the absent key as the value zero, not as
"unknown". -/
theorem absent_key_read_as_zero_cex :
    (is_busy CacheVal.emptyDict (HttpResult.ok 200 snapBare)).1
        = Except.ok false
      ∧ (is_busy CacheVal.emptyDict (HttpResult.ok 200 snapBusy0)).1
        = Except.ok false
      ∧ (is_busy CacheVal.emptyDict (HttpResult.ok 200 snapBusy1)).1
        = Except.ok true := by
  exact ⟨rfl, rfl, rfl⟩

/-- Claim C5 (amended): name lookups over an absent or unknown ID return
the `Unknown (<id>)` sentinel string rather than crashing, and the flag
consumers never raise on a sparse snapshot; but consumers doing
comparisons default an absent key to the value 0, not to "unknown":
`is_busy` reads an absent busy flag as "not busy" and `record_start`
reads an absent recording flag as "not recording". -/
theorem missing_keys_sentinel_and_zero_default (cache : CacheVal) :
    (∀ v : JVal, tableLookup resolutionTable v = none →
        _get_resolution_name v = "Unknown (" ++ JVal.render v ++ ")")
      ∧ _get_resolution_name (JVal.str "N/A") = "Unknown (N/A)"
      ∧ (∀ s : StateSnapshot, ∃ b, (is_busy cache (HttpResult.ok 200 s)).1
          = Except.ok b)
      ∧ (∀ s : StateSnapshot, s.status.lookup "8" = none →
          (is_busy cache (HttpResult.ok 200 s)).1 = Except.ok false)
      ∧ (∀ s : StateSnapshot, s.status.lookup "10" = none →
          (record_start cache (HttpResult.ok 200 ())
              (HttpResult.ok 200 s)).1.outcome = Except.ok false) := by
  refine ⟨?_, rfl, ?_, ?_, ?_⟩
  · intro v hv
    simp [_get_resolution_name, hv]
  · intro s
    exact ⟨pyNeInt (dictGet s.status "8" (JVal.num 0)) 0, by
      simp [is_busy, get_state, requestRaise, raisesStatus]⟩
  · intro s hs
    simp [is_busy, get_state, requestRaise, raisesStatus, dictGet, hs, pyNeInt]
  · intro s hs
    simp [record_start, record_start_body, requestRaise, raisesStatus,
      pyCatchRun, get_state, dictGet, hs, pyEqInt]

end GoProUSB
namespace GoProUSB

/-- Unfolding of the final check of the confirmation loop on a failing
fetch. -/
theorem record_stop_poll_zero_err (cache : CacheVal)
    (oracle : Nat → HttpResult StateSnapshot) (i : Nat) (e : GoError)
    (hs : requestRaise (oracle i) = Except.error e) :
    record_stop_poll cache oracle i 0 = (⟨Except.error e, [], 1⟩, cache) := by
  simp [record_stop_poll, get_state, hs]

/-- Unfolding of the final check of the confirmation loop on a successful
fetch: `True` whatever the flag reads. -/
theorem record_stop_poll_zero_ok (cache : CacheVal)
    (oracle : Nat → HttpResult StateSnapshot) (i : Nat) (s : StateSnapshot)
    (hs : requestRaise (oracle i) = Except.ok s) :
    record_stop_poll cache oracle i 0
      = (⟨Except.ok true, [], 1⟩, CacheVal.snap s) := by
  simp [record_stop_poll, get_state, hs]

/-- Unfolding of one loop iteration on a failing fetch. -/
theorem record_stop_poll_succ_err (cache : CacheVal)
    (oracle : Nat → HttpResult StateSnapshot) (i fuel : Nat) (e : GoError)
    (hs : requestRaise (oracle i) = Except.error e) :
    record_stop_poll cache oracle i (fuel + 1)
      = (⟨Except.error e, [if i == 0 then 1000 else 500], 1⟩, cache) := by
  simp [record_stop_poll, get_state, hs]

/-- Unfolding of one loop iteration whose fetch sees the recording flag
cleared: immediate success. -/
theorem record_stop_poll_succ_clear (cache : CacheVal)
    (oracle : Nat → HttpResult StateSnapshot) (i fuel : Nat)
    (s : StateSnapshot) (hs : requestRaise (oracle i) = Except.ok s)
    (hflag : pyEqInt (dictGet s.status "10" (JVal.num 0)) 0 = true) :
    record_stop_poll cache oracle i (fuel + 1)
      = (⟨Except.ok true, [if i == 0 then 1000 else 500], 1⟩,
          CacheVal.snap s) := by
  simp [record_stop_poll, get_state, hs, hflag]

/-- Unfolding of one loop iteration whose fetch still sees the recording
flag set: sleep, then keep polling. -/
theorem record_stop_poll_succ_cont (cache : CacheVal)
    (oracle : Nat → HttpResult StateSnapshot) (i fuel : Nat)
    (s : StateSnapshot) (hs : requestRaise (oracle i) = Except.ok s)
    (hflag : pyEqInt (dictGet s.status "10" (JVal.num 0)) 0 = false) :
    record_stop_poll cache oracle i (fuel + 1)
      = (⟨(record_stop_poll (CacheVal.snap s) oracle (i + 1) fuel).1.outcome,
          (if i == 0 then 1000 else 500)
            :: (record_stop_poll (CacheVal.snap s) oracle (i + 1) fuel).1.sleepsMs,
          1 + (record_stop_poll (CacheVal.snap s) oracle (i + 1) fuel).1.fetches⟩,
          (record_stop_poll (CacheVal.snap s) oracle (i + 1) fuel).2) := by
  simp [record_stop_poll, get_state, hs, hflag]

end GoProUSB

namespace GoProUSB

/-- If every fetch the poll loop can reach succeeds, the loop's outcome is
`True` (lenient completion of `record_stop`, whatever the flag does). -/
theorem record_stop_poll_all_ok (oracle : Nat → HttpResult StateSnapshot) :
    ∀ (fuel : Nat) (cache : CacheVal) (i : Nat),
      (∀ j, j ≤ fuel → ∃ s, requestRaise (oracle (i + j)) = Except.ok s) →
      (record_stop_poll cache oracle i fuel).1.outcome = Except.ok true := by
  intro fuel
  induction fuel with
  | zero =>
    intro cache i h
    obtain ⟨s, hs⟩ := h 0 (by omega)
    simp only [Nat.add_zero] at hs
    rw [record_stop_poll_zero_ok cache oracle i s hs]
  | succ fuel ih =>
    intro cache i h
    obtain ⟨s, hs⟩ := h 0 (by omega)
    simp only [Nat.add_zero] at hs
    by_cases hflag : pyEqInt (dictGet s.status "10" (JVal.num 0)) 0 = true
    · rw [record_stop_poll_succ_clear cache oracle i fuel s hs hflag]
    · rw [record_stop_poll_succ_cont cache oracle i fuel s hs
        (Bool.eq_false_iff.mpr hflag)]
      exact ih (CacheVal.snap s) (i + 1) (fun j hj => by
        have := h (j + 1) (by omega)
        have harith : i + (j + 1) = i + 1 + j := by omega
        rw [harith] at this
        exact this)

/-- An erroring outcome of the poll loop names the failing fetch: the
loop never invents an error of its own. -/
theorem record_stop_poll_error_source
    (oracle : Nat → HttpResult StateSnapshot) :
    ∀ (fuel : Nat) (cache : CacheVal) (i : Nat) (e : GoError),
      (record_stop_poll cache oracle i fuel).1.outcome = Except.error e →
      ∃ j, j ≤ fuel ∧ requestRaise (oracle (i + j)) = Except.error e := by
  intro fuel
  induction fuel with
  | zero =>
    intro cache i e h
    rcases hr : requestRaise (oracle i) with e' | s
    · rw [record_stop_poll_zero_err cache oracle i e' hr] at h
      simp only [Except.error.injEq] at h
      exact ⟨0, le_refl 0, by simp [hr, h]⟩
    · rw [record_stop_poll_zero_ok cache oracle i s hr] at h
      simp at h
  | succ fuel ih =>
    intro cache i e h
    rcases hr : requestRaise (oracle i) with e' | s
    · rw [record_stop_poll_succ_err cache oracle i fuel e' hr] at h
      simp only [Except.error.injEq] at h
      exact ⟨0, by omega, by simp [hr, h]⟩
    · by_cases hflag : pyEqInt (dictGet s.status "10" (JVal.num 0)) 0 = true
      · rw [record_stop_poll_succ_clear cache oracle i fuel s hr hflag] at h
        simp at h
      · rw [record_stop_poll_succ_cont cache oracle i fuel s hr
          (Bool.eq_false_iff.mpr hflag)] at h
        obtain ⟨j, hj, hje⟩ := ih (CacheVal.snap s) (i + 1) e h
        refine ⟨j + 1, by omega, ?_⟩
        have harith : i + (j + 1) = i + 1 + j := by omega
        rw [harith]
        exact hje

/-- The poll loop never produces the boolean `False` itself: a boolean
outcome is `True`. -/
theorem record_stop_poll_no_false
    (oracle : Nat → HttpResult StateSnapshot) :
    ∀ (fuel : Nat) (cache : CacheVal) (i : Nat) (b : Bool),
      (record_stop_poll cache oracle i fuel).1.outcome = Except.ok b →
      b = true := by
  intro fuel
  induction fuel with
  | zero =>
    intro cache i b h
    rcases hr : requestRaise (oracle i) with e' | s
    · rw [record_stop_poll_zero_err cache oracle i e' hr] at h
      simp at h
    · rw [record_stop_poll_zero_ok cache oracle i s hr] at h
      simp only [Except.ok.injEq] at h
      exact h.symm
  | succ fuel ih =>
    intro cache i b h
    rcases hr : requestRaise (oracle i) with e' | s
    · rw [record_stop_poll_succ_err cache oracle i fuel e' hr] at h
      simp at h
    · by_cases hflag : pyEqInt (dictGet s.status "10" (JVal.num 0)) 0 = true
      · rw [record_stop_poll_succ_clear cache oracle i fuel s hr hflag] at h
        simp only [Except.ok.injEq] at h
        exact h.symm
      · rw [record_stop_poll_succ_cont cache oracle i fuel s hr
          (Bool.eq_false_iff.mpr hflag)] at h
        exact ih (CacheVal.snap s) (i + 1) b h

/-- Early exit of the poll loop: when the first `k` reachable snapshots
keep the recording flag set and the `k`-th poll sees it cleared, the loop
answers `True` after exactly `k + 1` fetches, having slept once before
each of those polls. -/
theorem record_stop_poll_early_exit
    (oracle : Nat → HttpResult StateSnapshot) :
    ∀ (k fuel : Nat), k < fuel → ∀ (cache : CacheVal) (i : Nat),
      (∀ j, j < k → ∃ s, requestRaise (oracle (i + j)) = Except.ok s ∧
        pyEqInt (dictGet s.status "10" (JVal.num 0)) 0 = false) →
      (∃ s, requestRaise (oracle (i + k)) = Except.ok s ∧
        pyEqInt (dictGet s.status "10" (JVal.num 0)) 0 = true) →
      (record_stop_poll cache oracle i fuel).1
        = ⟨Except.ok true,
            (if i == 0 then 1000 else 500) :: List.replicate k 500,
            k + 1⟩ := by
  intro k
  induction k with
  | zero =>
    intro fuel hk cache i _hbefore hat
    obtain ⟨s, hs, hflag⟩ := hat
    simp only [Nat.add_zero] at hs hflag
    match fuel, hk with
    | fuel + 1, _ =>
      rw [record_stop_poll_succ_clear cache oracle i fuel s hs hflag]
      simp
  | succ k ih =>
    intro fuel hkf cache i hbefore hat
    match fuel, hkf with
    | fuel + 1, hkf =>
      obtain ⟨s, hs, hflag⟩ := hbefore 0 (by omega)
      simp only [Nat.add_zero] at hs hflag
      have hrec := ih fuel (by omega) (CacheVal.snap s) (i + 1)
        (fun j hj => by
          have := hbefore (j + 1) (by omega)
          have harith : i + (j + 1) = i + 1 + j := by omega
          rw [harith] at this
          exact this)
        (by
          have harith : i + (k + 1) = i + 1 + k := by omega
          rw [harith] at hat
          exact hat)
      rw [record_stop_poll_succ_cont cache oracle i fuel s hs hflag, hrec]
      have hi1 : ((i + 1 : Nat) == 0) = false := by simp
      rw [hi1]
      simp [List.replicate_succ]
      omega

/-- Full run of the poll loop with the flag never clearing: all `fuel + 2`
fetches happen (the `fuel + 1` loop polls plus the final check) and the
outcome is still `True`. -/
theorem record_stop_poll_full_run
    (oracle : Nat → HttpResult StateSnapshot) :
    ∀ (fuel : Nat) (cache : CacheVal) (i : Nat),
      (∀ j, j ≤ fuel + 1 → ∃ s, requestRaise (oracle (i + j)) = Except.ok s ∧
        (j ≤ fuel → pyEqInt (dictGet s.status "10" (JVal.num 0)) 0 = false)) →
      (record_stop_poll cache oracle i (fuel + 1)).1
        = ⟨Except.ok true,
            (if i == 0 then 1000 else 500) :: List.replicate fuel 500,
            fuel + 2⟩ := by
  intro fuel
  induction fuel with
  | zero =>
    intro cache i h
    obtain ⟨s, hs, hflag⟩ := h 0 (by omega)
    simp only [Nat.add_zero] at hs hflag
    obtain ⟨s1, hs1, _⟩ := h 1 (by omega)
    rw [record_stop_poll_succ_cont cache oracle i 0 s hs (hflag (by omega)),
      record_stop_poll_zero_ok (CacheVal.snap s) oracle (i + 1) s1 hs1]
    simp
  | succ fuel ih =>
    intro cache i h
    obtain ⟨s, hs, hflag⟩ := h 0 (by omega)
    simp only [Nat.add_zero] at hs hflag
    have hrec := ih (CacheVal.snap s) (i + 1) (fun j hj => by
      obtain ⟨s', hs', hf'⟩ := h (j + 1) (by omega)
      have harith : i + (j + 1) = i + 1 + j := by omega
      rw [harith] at hs'
      exact ⟨s', hs', fun hj2 => hf' (by omega)⟩)
    rw [record_stop_poll_succ_cont cache oracle i (fuel + 1) s hs
      (hflag (by omega)), hrec]
    have hi1 : ((i + 1 : Nat) == 0) = false := by simp
    rw [hi1]
    simp [List.replicate_succ]
    omega

end GoProUSB

namespace GoProUSB

/-- A `try/except` block is invisible when the body returned normally. -/
theorem pyCatchRun_of_ok (x : OpRun × CacheVal) (b : Bool)
    (h : x.1.outcome = Except.ok b) : pyCatchRun x = x := by
  obtain ⟨⟨out, sl, f⟩, c⟩ := x
  cases out with
  | error e => simp at h
  | ok b' => rfl

/-- A `try/except` block turns a raised exception into `return False`,
keeping the side effects (sleeps, fetches) already performed. -/
theorem pyCatchRun_of_err (x : OpRun × CacheVal) (e : GoError)
    (h : x.1.outcome = Except.error e) :
    pyCatchRun x = (⟨Except.ok false, x.1.sleepsMs, x.1.fetches⟩, x.2) := by
  obtain ⟨⟨out, sl, f⟩, c⟩ := x
  cases out with
  | error e' => rfl
  | ok b' => simp at h

/-- Claim C3 counterexample: with the shutter-stop accepted, all five loop
polls succeeding with the recording flag still set, and the camera then
unreachable, `record_stop` performs a sixth state fetch and returns
`False` — the claim's "up to 5" poll budget and its "still returns true
when the flag never clears" are both violated by the sixth fetch. -/
theorem record_stop_sixth_fetch_cex :
    (record_stop CacheVal.emptyDict (HttpResult.ok 200 ())
          oracleStuck).1.outcome = Except.ok false
      ∧ (record_stop CacheVal.emptyDict (HttpResult.ok 200 ())
          oracleStuck).1.fetches = 6
      ∧ (∀ i, i < 5 → requestRaise (oracleStuck i) = Except.ok snapRec)
      ∧ pyEqInt (dictGet snapRec.status "10" (JVal.num 0)) 0 = false := by
  refine ⟨rfl, rfl, ?_, rfl⟩
  intro i hi
  interval_cases i <;> rfl

/-- Claim C3 (amended): whenever the shutter-stop request succeeds,
`record_stop` polls the camera state up to 6 times — up to 5 in the loop,
sleeping 1.0s before the first check and 0.5s before each later one, plus
one final un-slept check — returns `True` as soon as the recording flag
reads 0 in the loop, still returns `True` when the flag never clears
provided every fetch succeeds, and returns `False` exactly when an
HTTP/transport failure occurs (on the stop request or on one of the up to
six fetches). -/
theorem record_stop_budget_and_leniency (cache : CacheVal)
    (shutter : HttpResult Unit) (oracle : Nat → HttpResult StateSnapshot) :
    (∀ e, requestRaise shutter = Except.error e →
        record_stop cache shutter oracle = (⟨Except.ok false, [], 0⟩, cache))
      ∧ (requestRaise shutter = Except.ok () →
          (∀ j, j ≤ 5 → ∃ s, requestRaise (oracle j) = Except.ok s) →
          (record_stop cache shutter oracle).1.outcome = Except.ok true)
      ∧ (requestRaise shutter = Except.ok () →
          ∀ k, k < 5 →
          (∀ j, j < k → ∃ s, requestRaise (oracle j) = Except.ok s ∧
            pyEqInt (dictGet s.status "10" (JVal.num 0)) 0 = false) →
          (∃ s, requestRaise (oracle k) = Except.ok s ∧
            pyEqInt (dictGet s.status "10" (JVal.num 0)) 0 = true) →
          (record_stop cache shutter oracle).1
            = ⟨Except.ok true, 1000 :: List.replicate k 500, k + 1⟩)
      ∧ (requestRaise shutter = Except.ok () →
          (∀ j, j ≤ 5 → ∃ s, requestRaise (oracle j) = Except.ok s ∧
            (j ≤ 4 → pyEqInt (dictGet s.status "10" (JVal.num 0)) 0 = false)) →
          (record_stop cache shutter oracle).1
            = ⟨Except.ok true, [1000, 500, 500, 500, 500], 6⟩)
      ∧ ((record_stop cache shutter oracle).1.outcome = Except.ok false →
          requestRaise shutter ≠ Except.ok ()
            ∨ ∃ j e, j ≤ 5 ∧ requestRaise (oracle j) = Except.error e) := by
  refine ⟨?_, ?_, ?_, ?_, ?_⟩
  · intro e hsh
    simp [record_stop, record_stop_body, hsh, pyCatchRun]
  · intro hsh hall
    have hpoll := record_stop_poll_all_ok oracle 5 cache 0 (fun j hj => by
      simpa using hall j hj)
    rw [record_stop, record_stop_body, hsh,
      pyCatchRun_of_ok _ true hpoll]
    exact hpoll
  · intro hsh k hk hbefore hat
    have hpoll := record_stop_poll_early_exit oracle k 5 hk cache 0
      (fun j hj => by simpa using hbefore j hj) (by simpa using hat)
    rw [record_stop, record_stop_body, hsh,
      pyCatchRun_of_ok _ true (by rw [hpoll]), hpoll]
    simp
  · intro hsh hall
    have hpoll := record_stop_poll_full_run oracle 4 cache 0 (fun j hj => by
      have := hall j (by omega)
      simpa using this)
    rw [record_stop, record_stop_body, hsh,
      pyCatchRun_of_ok _ true (by rw [hpoll]), hpoll]
    simp
  · intro hfalse
    rcases hsh : requestRaise shutter with e | u
    · exact Or.inl (by simp [hsh])
    · cases u
      right
      rw [record_stop, record_stop_body, hsh] at hfalse
      rcases hout : (record_stop_poll cache oracle 0 5).1.outcome with e | b
      · obtain ⟨j, hj, hje⟩ :=
          record_stop_poll_error_source oracle 5 cache 0 e hout
        exact ⟨j, e, hj, by simpa using hje⟩
      · have hb := record_stop_poll_no_false oracle 5 cache 0 b hout
        rw [pyCatchRun_of_ok _ b hout] at hfalse
        rw [hout] at hfalse
        simp only [Except.ok.injEq] at hfalse
        rw [hb] at hfalse
        simp at hfalse

end GoProUSB

namespace GoProUSB

/-- Claim C6 counterexample: on a listing whose last-listed directory is
"100GOPRO" while the lexically-last directory is "200GOPRO",
`download_last_media` selects "100GOPRO" (and its last-listed file): the
selection is positional, not lexical.  The extension handling is as
claimed: the caller's "out.mp4" is saved as "out.JPG". -/
theorem download_positional_not_lexical_cex :
    download_last_media CacheVal.emptyDict encReadyOracle 1
        (HttpResult.ok 200 (some mediaSample)) (HttpResult.ok 200 ())
        true "out.mp4"
      = some (⟨Except.ok true, some ("100GOPRO", "GOPR0002.JPG"),
          some "out.JPG"⟩, CacheVal.snap snapIdle)
      ∧ lexicalLast (mediaSample.map MediaDir.d) = some "200GOPRO"
      ∧ ("100GOPRO" : String) ≠ "200GOPRO" := by
  refine ⟨by decide, by decide, by decide⟩

end GoProUSB

namespace GoProUSB

/-- Claim C6 (amended): once the encoding wait completes,
`download_last_media` selects the positionally-last (final-listed)
directory and the positionally-last file within it — not the
lexically-last ones — names the output file with the source file's
extension regardless of the caller-supplied destination extension, and
returns `False` on an HTTP error, an empty media list, or an I/O error,
never propagating an exception once the wait has completed. -/
theorem download_last_media_positional_selection (cache : CacheVal)
    (eo : Nat → HttpResult StateSnapshot) (ef : Nat)
    (mr : HttpResult (Option (List MediaDir))) (dr : HttpResult Unit)
    (io : Bool) (out : String) :
    (∀ media dir f, mlJson mr = Except.ok media →
        media.getLast? = some dir → dir.fs.getLast? = some f →
        requestRaise dr = Except.ok () → io = true →
        (enc_wait cache eo 0 ef).1 = some (Except.ok ()) →
        download_last_media cache eo ef mr dr io out
          = some (⟨Except.ok true, some (dir.d, f.n),
              some (pyStem out ++ "." ++ pyExt f.n)⟩,
              (enc_wait cache eo 0 ef).2))
      ∧ (mlJson mr = Except.ok [] →
          (enc_wait cache eo 0 ef).1 = some (Except.ok ()) →
          download_last_media cache eo ef mr dr io out
            = some (⟨Except.ok false, none, none⟩,
                (enc_wait cache eo 0 ef).2))
      ∧ (∀ e, mlJson mr = Except.error e →
          (enc_wait cache eo 0 ef).1 = some (Except.ok ()) →
          download_last_media cache eo ef mr dr io out
            = some (⟨Except.ok false, none, none⟩,
                (enc_wait cache eo 0 ef).2))
      ∧ (∀ media dir f e, mlJson mr = Except.ok media →
          media.getLast? = some dir → dir.fs.getLast? = some f →
          requestRaise dr = Except.error e →
          (enc_wait cache eo 0 ef).1 = some (Except.ok ()) →
          download_last_media cache eo ef mr dr io out
            = some (⟨Except.ok false, some (dir.d, f.n), none⟩,
                (enc_wait cache eo 0 ef).2))
      ∧ (∀ media dir f, mlJson mr = Except.ok media →
          media.getLast? = some dir → dir.fs.getLast? = some f →
          requestRaise dr = Except.ok () → io = false →
          (enc_wait cache eo 0 ef).1 = some (Except.ok ()) →
          download_last_media cache eo ef mr dr io out
            = some (⟨Except.ok false, some (dir.d, f.n), none⟩,
                (enc_wait cache eo 0 ef).2))
      ∧ (∀ run c2, download_last_media cache eo ef mr dr io out
            = some (run, c2) → ∃ b, run.outcome = Except.ok b) := by
  refine ⟨?_, ?_, ?_, ?_, ?_, ?_⟩
  · intro media dir f h1 h2 h3 h4 h5 henc
    rcases hew : enc_wait cache eo 0 ef with ⟨w1, c2⟩
    rw [hew] at henc
    simp only at henc
    subst henc
    subst h5
    simp [download_last_media, download_body, hew, h1, h2, h3, h4]
  · intro h1 henc
    rcases hew : enc_wait cache eo 0 ef with ⟨w1, c2⟩
    rw [hew] at henc
    simp only at henc
    subst henc
    simp [download_last_media, download_body, hew, h1]
  · intro e h1 henc
    rcases hew : enc_wait cache eo 0 ef with ⟨w1, c2⟩
    rw [hew] at henc
    simp only at henc
    subst henc
    simp [download_last_media, download_body, hew, h1]
  · intro media dir f e h1 h2 h3 h4 henc
    rcases hew : enc_wait cache eo 0 ef with ⟨w1, c2⟩
    rw [hew] at henc
    simp only at henc
    subst henc
    simp [download_last_media, download_body, hew, h1, h2, h3, h4]
  · intro media dir f h1 h2 h3 h4 h5 henc
    rcases hew : enc_wait cache eo 0 ef with ⟨w1, c2⟩
    rw [hew] at henc
    simp only at henc
    subst henc
    subst h5
    simp [download_last_media, download_body, hew, h1, h2, h3, h4]
  · intro run c2 h
    rw [download_last_media] at h
    rcases hb : download_body cache eo ef mr dr io out with _ | ⟨⟨o1, ch, sv⟩, c'⟩
    · rw [hb] at h
      simp at h
    · rw [hb] at h
      cases o1 with
      | error e =>
        simp only [Option.some.injEq, Prod.mk.injEq] at h
        exact ⟨false, by rw [← h.1]⟩
      | ok b =>
        simp only [Option.some.injEq, Prod.mk.injEq] at h
        exact ⟨b, by rw [← h.1]⟩

end GoProUSB

namespace GoProUSB

/-- `wait_until_ready` returns `False` once the timeout has elapsed. -/
theorem wait_until_ready_loop_timeout (T : Nat)
    (oB oE : Nat → HttpResult StateSnapshot) (cache : CacheVal) (k : Nat)
    (h : ¬ 500 * k < T) :
    wait_until_ready_loop T oB oE cache k = (Except.ok false, cache) := by
  rw [wait_until_ready_loop]
  exact dif_neg h

/-- Over a camera that always answers (status 200), `wait_until_ready`
returns `True` exactly when some iteration inside the timeout window sees
the busy flag and then the encoding flag both clear, and it always
returns a boolean. -/
theorem wait_until_ready_loop_ok_iff (T : Nat)
    (sB sE : Nat → StateSnapshot) :
    ∀ (n k : Nat) (cache : CacheVal), T - 500 * k = n →
      ((wait_until_ready_loop T (fun m => HttpResult.ok 200 (sB m))
            (fun m => HttpResult.ok 200 (sE m)) cache k).1 = Except.ok true
          ↔ ∃ j, k ≤ j ∧ 500 * j < T ∧ busyFlag (sB j) = false
              ∧ encFlag (sE j) = false)
        ∧ ((wait_until_ready_loop T (fun m => HttpResult.ok 200 (sB m))
              (fun m => HttpResult.ok 200 (sE m)) cache k).1 = Except.ok true
            ∨ (wait_until_ready_loop T (fun m => HttpResult.ok 200 (sB m))
                (fun m => HttpResult.ok 200 (sE m)) cache k).1
              = Except.ok false) := by
  intro n
  induction n using Nat.strong_induction_on with
  | _ n ih =>
    intro k cache hn
    by_cases h : 500 * k < T
    · have hgsB : is_busy cache (HttpResult.ok 200 (sB k))
          = (Except.ok (busyFlag (sB k)), CacheVal.snap (sB k)) := rfl
      have hstep := wait_until_ready_loop_step T
        (fun m => HttpResult.ok 200 (sB m)) (fun m => HttpResult.ok 200 (sE m))
        cache k h
      rcases hb : busyFlag (sB k) with _ | _
      · have hgsE : is_encoding (CacheVal.snap (sB k))
            (HttpResult.ok 200 (sE k))
            = (Except.ok (encFlag (sE k)), CacheVal.snap (sE k)) := rfl
        rcases he : encFlag (sE k) with _ | _
        · simp only [hstep, hgsB, hb, hgsE, he]
          refine ⟨⟨fun _ => ⟨k, le_refl k, h, hb, he⟩, fun _ => trivial⟩,
            Or.inl trivial⟩
        · simp only [hstep, hgsB, hb, hgsE, he]
          have hrec := ih (T - 500 * (k + 1)) (by omega) (k + 1)
            (CacheVal.snap (sE k)) rfl
          constructor
          · rw [hrec.1]
            constructor
            · rintro ⟨j, hj, hjT, hjb, hje⟩
              exact ⟨j, by omega, hjT, hjb, hje⟩
            · rintro ⟨j, hj, hjT, hjb, hje⟩
              refine ⟨j, ?_, hjT, hjb, hje⟩
              rcases Nat.eq_or_lt_of_le hj with rfl | hlt
              · rw [hje] at he
                exact absurd he (by simp)
              · omega
          · exact hrec.2
      · simp only [hstep, hgsB, hb]
        have hrec := ih (T - 500 * (k + 1)) (by omega) (k + 1)
          (CacheVal.snap (sB k)) rfl
        constructor
        · rw [hrec.1]
          constructor
          · rintro ⟨j, hj, hjT, hjb, hje⟩
            exact ⟨j, by omega, hjT, hjb, hje⟩
          · rintro ⟨j, hj, hjT, hjb, hje⟩
            refine ⟨j, ?_, hjT, hjb, hje⟩
            rcases Nat.eq_or_lt_of_le hj with rfl | hlt
            · rw [hjb] at hb
              exact absurd hb (by simp)
            · omega
        · exact hrec.2
    · rw [wait_until_ready_loop_timeout T _ _ cache k h]
      constructor
      · constructor
        · intro hfalse
          simp at hfalse
        · rintro ⟨j, hj, hjT, _, _⟩
          have : 500 * k ≤ 500 * j := by omega
          omega
      · exact Or.inr rfl

/-- Claim C7: over a camera that always answers, `wait_until_ready(T)`
polls the busy flag (ID 8) and — when it is clear — the encoding flag
(ID 10) every 0.5 seconds, returns `True` exactly when some poll inside
the timeout window (elapsed time `500·k` ms at iteration `k`) sees both
flags clear, and returns `False` (a boolean, not an exception) once the
timeout elapses without that happening. -/
theorem wait_until_ready_polls_until_ready (T : Nat)
    (sB sE : Nat → StateSnapshot) (cache : CacheVal) :
    ((wait_until_ready T (fun m => HttpResult.ok 200 (sB m))
          (fun m => HttpResult.ok 200 (sE m)) cache).1 = Except.ok true
        ↔ ∃ j, 500 * j < T ∧ busyFlag (sB j) = false ∧ encFlag (sE j) = false)
      ∧ ((wait_until_ready T (fun m => HttpResult.ok 200 (sB m))
            (fun m => HttpResult.ok 200 (sE m)) cache).1 = Except.ok true
          ∨ (wait_until_ready T (fun m => HttpResult.ok 200 (sB m))
              (fun m => HttpResult.ok 200 (sE m)) cache).1
            = Except.ok false) := by
  have hmain := wait_until_ready_loop_ok_iff T sB sE (T - 500 * 0) 0 cache rfl
  constructor
  · rw [wait_until_ready, hmain.1]
    constructor
    · rintro ⟨j, _, hjT, hjb, hje⟩
      exact ⟨j, hjT, hjb, hje⟩
    · rintro ⟨j, hjT, hjb, hje⟩
      exact ⟨j, Nat.zero_le j, hjT, hjb, hje⟩
  · exact hmain.2

end GoProUSB

namespace GoProUSB

/-- Claim C8 counterexample: with the enable-wired-USB step answering HTTP
500 (an error status) and the later steps succeeding, `power_on` returns
`True`: an HTTP failure on the first step is not reported as `False`,
because `usb_enable` never checks the response status. -/
theorem power_on_ignores_http_error_cex :
    (power_on CacheVal.emptyDict (HttpResult.ok 500 ()) (HttpResult.ok 200 ())
        (HttpResult.ok 200 snapBare)).1.outcome = Except.ok true
      ∧ raisesStatus 500 = true := by
  exact ⟨rfl, rfl⟩

/-- Claim C8 (amended): `power_on` issues enable-wired-USB-control, then
set-external-controller, then a verifying state fetch; it returns `True`
exactly when the first two requests incur no transport error and the
final fetch fully succeeds (transport plus `raise_for_status`); any
exception is caught and reported as `False` (never propagated), but a
non-2xx status on the first two steps is ignored, not reported. -/
theorem power_on_success_iff (cache : CacheVal) (r1 r2 : HttpResult Unit)
    (r3 : HttpResult StateSnapshot) :
    ((power_on cache r1 r2 r3).1.outcome = Except.ok true ↔
        (∃ c, r1 = HttpResult.ok c ()) ∧ (∃ c, r2 = HttpResult.ok c ())
          ∧ ∃ s, fetchGives r3 s)
      ∧ ((power_on cache r1 r2 r3).1.outcome = Except.ok true
          ∨ (power_on cache r1 r2 r3).1.outcome = Except.ok false)
      ∧ (∀ c1 c2, r1 = HttpResult.ok c1 () → r2 = HttpResult.ok c2 () →
          (power_on cache r1 r2 r3).1.sleepsMs = [1000, 500]) := by
  refine ⟨?_, ?_, ?_⟩
  · rcases r1 with _ | ⟨c1, u1⟩
    · simp [power_on, power_on_body, usb_enable, sessionFetch, pyCatchRun]
    · cases u1
      rcases r2 with _ | ⟨c2, u2⟩
      · simp [power_on, power_on_body, usb_enable, set_control_external,
          sessionFetch, pyCatchRun]
      · cases u2
        rcases r3 with _ | ⟨c3, s⟩
        · simp [power_on, power_on_body, usb_enable, set_control_external,
            get_state, sessionFetch, requestRaise, pyCatchRun, fetchGives]
        · by_cases hc3 : raisesStatus c3 = true
          · simp [power_on, power_on_body, usb_enable, set_control_external,
              get_state, sessionFetch, requestRaise, pyCatchRun, fetchGives,
              hc3]
          · simp [power_on, power_on_body, usb_enable, set_control_external,
              get_state, sessionFetch, requestRaise, pyCatchRun, fetchGives,
              hc3]
  · exact (pyCatchRun_total _).elim (fun b hb => by
      rcases b with _ | _
      · exact Or.inr hb
      · exact Or.inl hb)
  · intro c1 c2 h1 h2
    subst h1
    subst h2
    rcases r3 with _ | ⟨c3, s⟩
    · simp [power_on, power_on_body, usb_enable, set_control_external,
        get_state, sessionFetch, requestRaise, pyCatchRun]
    · by_cases hc3 : raisesStatus c3 = true <;>
        simp [power_on, power_on_body, usb_enable, set_control_external,
          get_state, sessionFetch, requestRaise, pyCatchRun, hc3]

/-- Claim C9 counterexample: at the same successful HTTP outcome, the
wrapper `set_resolution_5k` hands back the raw response object while the
generic change-setting operation returns the boolean `True`: the wrapper
is not behaviorally equal to `changeSetting` at its (2, 24) pair. -/
theorem wrapper_not_changeSetting_cex :
    respRun set_resolution_5k (HttpResult.ok 200 ())
        = Except.ok (OpOutcome.asResp 200)
      ∧ boolRun (changeSetting 2 24) (HttpResult.ok 200 ())
        = Except.ok (OpOutcome.asBool true)
      ∧ respRun set_resolution_5k (HttpResult.ok 200 ())
        ≠ boolRun (changeSetting 2 24) (HttpResult.ok 200 ()) := by
  refine ⟨rfl, rfl, by decide⟩

/-- Claim C9 (amended): every convenience wrapper issues exactly one GET
to `/gopro/camera/setting` with its literal (settingID, optionID) pair —
all the wrapper URLs equal the generic change-setting URL at those IDs —
but the wrappers do not share one behavior: `set_resolution_5_3k`,
`set_fps_240` and `set_lens_linear` return boolean success based on HTTP
status, behaviorally equal to `changeSetting`, while the remaining
wrappers return the raw `Response` and propagate transport errors, and so
differ from `changeSetting` at every HTTP outcome. -/
theorem setting_wrappers_vs_changeSetting (base : String)
    (r : HttpResult Unit) :
    set_resolution_5_3k_url base = changeSettingUrl base 2 100
      ∧ set_resolution_5k_url base = changeSettingUrl base 2 24
      ∧ set_resolution_4k_url base = changeSettingUrl base 2 1
      ∧ set_resolution_2_7k_url base = changeSettingUrl base 2 4
      ∧ set_resolution_1080_url base = changeSettingUrl base 2 9
      ∧ set_fps_240_url base = changeSettingUrl base 3 0
      ∧ set_fps_200_url base = changeSettingUrl base 3 13
      ∧ set_fps_120_url base = changeSettingUrl base 3 1
      ∧ set_fps_60_url base = changeSettingUrl base 3 5
      ∧ set_fps_30_url base = changeSettingUrl base 3 8
      ∧ set_fps_24_url base = changeSettingUrl base 3 10
      ∧ set_lens_linear_url base = changeSettingUrl base 121 4
      ∧ set_lens_wide_url base = changeSettingUrl base 121 0
      ∧ set_lens_narrow_url base = changeSettingUrl base 121 2
      ∧ set_lens_superview_url base = changeSettingUrl base 121 3
      ∧ set_lens_max_superview_url base = changeSettingUrl base 121 7
      ∧ set_lens_linear_horizon_url base = changeSettingUrl base 121 8
      ∧ set_resolution_5_3k r = changeSetting 2 100 r
      ∧ set_fps_240 r = changeSetting 3 0 r
      ∧ set_lens_linear r = changeSetting 121 4 r
      ∧ respRun set_resolution_5k r ≠ boolRun (changeSetting 2 24) r
      ∧ respRun set_fps_120 r ≠ boolRun (changeSetting 3 1) r
      ∧ respRun set_lens_wide r ≠ boolRun (changeSetting 121 0) r := by
  have hwrap : ∀ (sid oid : Nat), checkedBoolGet r = changeSetting sid oid r := by
    intro sid oid
    rcases r with _ | ⟨c, u⟩
    · rfl
    · by_cases hc : raisesStatus c = true <;>
        simp [checkedBoolGet, changeSetting, requestRaise, pyCatchFalse, hc]
  have hne : ∀ (f : HttpResult Unit → Except GoError Nat)
      (hf : ∀ x, f x = plainResponseGet x) (sid oid : Nat),
      respRun f r ≠ boolRun (changeSetting sid oid) r := by
    intro f hf sid oid
    rcases r with _ | ⟨c, u⟩ <;>
      simp [respRun, boolRun, hf, plainResponseGet, sessionFetch, changeSetting,
        Except.map]
  refine ⟨rfl, rfl, rfl, rfl, rfl, rfl, rfl, rfl, rfl, rfl, rfl, rfl, rfl,
    rfl, rfl, rfl, rfl, hwrap 2 100, hwrap 3 0, hwrap 121 4,
    hne _ (fun _ => rfl) 2 24, hne _ (fun _ => rfl) 3 1,
    hne _ (fun _ => rfl) 121 0⟩

end GoProUSB

namespace GoProUSB

/-- The `try/except` wrapper never touches the cache. -/
theorem pyCatchRun_snd (x : OpRun × CacheVal) : (pyCatchRun x).2 = x.2 := by
  obtain ⟨⟨out, sl, f⟩, c⟩ := x
  cases out <;> rfl

/-- The `try/except` wrapper's visible run depends only on the body's
run, not on the cache it carries. -/
theorem pyCatchRun_fst_congr (x y : OpRun × CacheVal) (h : x.1 = y.1) :
    (pyCatchRun x).1 = (pyCatchRun y).1 := by
  obtain ⟨x1, xc⟩ := x
  obtain ⟨y1, yc⟩ := y
  simp only at h
  subst h
  obtain ⟨out, sl, f⟩ := x1
  cases out <;> rfl

/-- The poll loop's visible run never depends on the incoming cache. -/
theorem record_stop_poll_fst_indep (oracle : Nat → HttpResult StateSnapshot) :
    ∀ (fuel : Nat) (c1 c2 : CacheVal) (i : Nat),
      (record_stop_poll c1 oracle i fuel).1
        = (record_stop_poll c2 oracle i fuel).1 := by
  intro fuel
  cases fuel with
  | zero =>
    intro c1 c2 i
    rcases hr : requestRaise (oracle i) with e | s
    · rw [record_stop_poll_zero_err c1 oracle i e hr,
        record_stop_poll_zero_err c2 oracle i e hr]
    · rw [record_stop_poll_zero_ok c1 oracle i s hr,
        record_stop_poll_zero_ok c2 oracle i s hr]
  | succ fuel =>
    intro c1 c2 i
    rcases hr : requestRaise (oracle i) with e | s
    · rw [record_stop_poll_succ_err c1 oracle i fuel e hr,
        record_stop_poll_succ_err c2 oracle i fuel e hr]
    · by_cases hf : pyEqInt (dictGet s.status "10" (JVal.num 0)) 0 = true
      · rw [record_stop_poll_succ_clear c1 oracle i fuel s hr hf,
          record_stop_poll_succ_clear c2 oracle i fuel s hr hf]
      · rw [record_stop_poll_succ_cont c1 oracle i fuel s hr
          (Bool.eq_false_iff.mpr hf),
          record_stop_poll_succ_cont c2 oracle i fuel s hr
          (Bool.eq_false_iff.mpr hf)]

/-- The poll loop leaves the cache alone or stores a snapshot it actually
fetched. -/
theorem record_stop_poll_snd_prov (oracle : Nat → HttpResult StateSnapshot) :
    ∀ (fuel : Nat) (cache : CacheVal) (i : Nat),
      (record_stop_poll cache oracle i fuel).2 = cache
        ∨ ∃ j s, requestRaise (oracle j) = Except.ok s ∧
            (record_stop_poll cache oracle i fuel).2 = CacheVal.snap s := by
  intro fuel
  induction fuel with
  | zero =>
    intro cache i
    rcases hr : requestRaise (oracle i) with e | s
    · rw [record_stop_poll_zero_err cache oracle i e hr]
      exact Or.inl rfl
    · rw [record_stop_poll_zero_ok cache oracle i s hr]
      exact Or.inr ⟨i, s, hr, rfl⟩
  | succ fuel ih =>
    intro cache i
    rcases hr : requestRaise (oracle i) with e | s
    · rw [record_stop_poll_succ_err cache oracle i fuel e hr]
      exact Or.inl rfl
    · by_cases hf : pyEqInt (dictGet s.status "10" (JVal.num 0)) 0 = true
      · rw [record_stop_poll_succ_clear cache oracle i fuel s hr hf]
        exact Or.inr ⟨i, s, hr, rfl⟩
      · rw [record_stop_poll_succ_cont cache oracle i fuel s hr
          (Bool.eq_false_iff.mpr hf)]
        rcases ih (CacheVal.snap s) (i + 1) with hsame | ⟨j, s', hj, hsnap⟩
        · exact Or.inr ⟨i, s, hr, hsame⟩
        · exact Or.inr ⟨j, s', hj, hsnap⟩

/-- `wait_until_ready`'s visible result never depends on the incoming
cache. -/
theorem wait_until_ready_loop_fst_indep (T : Nat)
    (oB oE : Nat → HttpResult StateSnapshot) :
    ∀ (n k : Nat) (c1 c2 : CacheVal), T - 500 * k = n →
      (wait_until_ready_loop T oB oE c1 k).1
        = (wait_until_ready_loop T oB oE c2 k).1 := by
  intro n
  induction n using Nat.strong_induction_on with
  | _ n _ih =>
    intro k c1 c2 hn
    by_cases h : 500 * k < T
    · rcases hr : requestRaise (oB k) with e | s
      · have hb1 : is_busy c1 (oB k) = (Except.error e, c1) := by
          simp [is_busy, get_state, hr]
        have hb2 : is_busy c2 (oB k) = (Except.error e, c2) := by
          simp [is_busy, get_state, hr]
        simp only [wait_until_ready_loop_step T oB oE _ k h, hb1, hb2]
      · have hb1 : is_busy c1 (oB k)
            = (Except.ok (busyFlag s), CacheVal.snap s) := by
          simp [is_busy, get_state, hr, busyFlag]
        have hb2 : is_busy c2 (oB k)
            = (Except.ok (busyFlag s), CacheVal.snap s) := by
          simp [is_busy, get_state, hr, busyFlag]
        simp only [wait_until_ready_loop_step T oB oE _ k h, hb1, hb2]
    · rw [wait_until_ready_loop_timeout T oB oE c1 k h,
        wait_until_ready_loop_timeout T oB oE c2 k h]

/-- `wait_until_ready` leaves the cache alone or stores a snapshot one of
its `get_state` fetches (via `is_busy` or `is_encoding`) delivered. -/
theorem wait_until_ready_loop_snd_prov (T : Nat)
    (oB oE : Nat → HttpResult StateSnapshot) :
    ∀ (n k : Nat) (cache : CacheVal), T - 500 * k = n →
      (wait_until_ready_loop T oB oE cache k).2 = cache
        ∨ ∃ j s, (requestRaise (oB j) = Except.ok s
              ∨ requestRaise (oE j) = Except.ok s)
            ∧ (wait_until_ready_loop T oB oE cache k).2 = CacheVal.snap s := by
  intro n
  induction n using Nat.strong_induction_on with
  | _ n ih =>
    intro k cache hn
    by_cases h : 500 * k < T
    · rcases hr : requestRaise (oB k) with e | s
      · have hb : is_busy cache (oB k) = (Except.error e, cache) := by
          simp [is_busy, get_state, hr]
        simp only [wait_until_ready_loop_step T oB oE cache k h, hb]
        exact Or.inl trivial
      · have hb : is_busy cache (oB k)
            = (Except.ok (busyFlag s), CacheVal.snap s) := by
          simp [is_busy, get_state, hr, busyFlag]
        simp only [wait_until_ready_loop_step T oB oE cache k h, hb]
        rcases hbf : busyFlag s with _ | _
        · rcases hre : requestRaise (oE k) with e2 | s2
          · have he : is_encoding (CacheVal.snap s) (oE k)
                = (Except.error e2, CacheVal.snap s) := by
              simp [is_encoding, get_state, hre]
            simp only [he]
            exact Or.inr ⟨k, s, Or.inl hr, rfl⟩
          · have he : is_encoding (CacheVal.snap s) (oE k)
                = (Except.ok (encFlag s2), CacheVal.snap s2) := by
              simp [is_encoding, get_state, hre, encFlag]
            simp only [he]
            rcases hef : encFlag s2 with _ | _
            · exact Or.inr ⟨k, s2, Or.inr hre, rfl⟩
            · rcases ih (T - 500 * (k + 1)) (by omega) (k + 1)
                (CacheVal.snap s2) rfl with hsame | ⟨j, s', hj, hsnap⟩
              · exact Or.inr ⟨k, s2, Or.inr hre, hsame⟩
              · exact Or.inr ⟨j, s', hj, hsnap⟩
        · rcases ih (T - 500 * (k + 1)) (by omega) (k + 1)
            (CacheVal.snap s) rfl with hsame | ⟨j, s', hj, hsnap⟩
          · exact Or.inr ⟨k, s, Or.inl hr, hsame⟩
          · exact Or.inr ⟨j, s', hj, hsnap⟩
    · rw [wait_until_ready_loop_timeout T oB oE cache k h]
      exact Or.inl rfl

end GoProUSB

namespace GoProUSB

/-- Claim C10: the `_last_status` cache is written only inside
`get_state`, always to the freshly fetched snapshot, and is read by no
other operation: for each state-using operation the visible result is
independent of the incoming cache, and the outgoing cache is either
untouched or the snapshot of a fetch the operation actually performed
(through `get_state`). -/
theorem last_status_cache_frame (c1 c2 : CacheVal)
    (r f r3 : HttpResult StateSnapshot) (u sh : HttpResult Unit)
    (oracle oB oE : Nat → HttpResult StateSnapshot) (T : Nat) :
    ((get_state c1 r).1 = (get_state c2 r).1)
      ∧ ((get_state c1 r).2 = c1
          ∨ ∃ s, requestRaise r = Except.ok s
              ∧ (get_state c1 r).2 = CacheVal.snap s)
      ∧ ((is_busy c1 r).1 = (is_busy c2 r).1)
      ∧ ((is_busy c1 r).2 = (get_state c1 r).2)
      ∧ ((is_encoding c1 r).1 = (is_encoding c2 r).1)
      ∧ ((is_encoding c1 r).2 = (get_state c1 r).2)
      ∧ ((record_start c1 sh f).1 = (record_start c2 sh f).1)
      ∧ ((record_start c1 sh f).2 = c1
          ∨ ∃ s, requestRaise f = Except.ok s
              ∧ (record_start c1 sh f).2 = CacheVal.snap s)
      ∧ ((record_stop c1 sh oracle).1 = (record_stop c2 sh oracle).1)
      ∧ ((record_stop c1 sh oracle).2 = c1
          ∨ ∃ j s, requestRaise (oracle j) = Except.ok s
              ∧ (record_stop c1 sh oracle).2 = CacheVal.snap s)
      ∧ ((power_on c1 u sh r3).1 = (power_on c2 u sh r3).1)
      ∧ ((power_on c1 u sh r3).2 = c1
          ∨ ∃ s, requestRaise r3 = Except.ok s
              ∧ (power_on c1 u sh r3).2 = CacheVal.snap s)
      ∧ ((wait_until_ready T oB oE c1).1 = (wait_until_ready T oB oE c2).1)
      ∧ ((wait_until_ready T oB oE c1).2 = c1
          ∨ ∃ j s, (requestRaise (oB j) = Except.ok s
                ∨ requestRaise (oE j) = Except.ok s)
              ∧ (wait_until_ready T oB oE c1).2 = CacheVal.snap s) := by
  refine ⟨?_, ?_, ?_, ?_, ?_, ?_, ?_, ?_, ?_, ?_, ?_, ?_, ?_, ?_⟩
  · rcases hr : requestRaise r with e | s <;> simp [get_state, hr]
  · rcases hr : requestRaise r with e | s
    · exact Or.inl (by simp [get_state, hr])
    · exact Or.inr ⟨s, rfl, by simp [get_state, hr]⟩
  · rcases hr : requestRaise r with e | s <;> simp [is_busy, get_state, hr]
  · rcases hr : requestRaise r with e | s <;> simp [is_busy, get_state, hr]
  · rcases hr : requestRaise r with e | s <;>
      simp [is_encoding, get_state, hr]
  · rcases hr : requestRaise r with e | s <;>
      simp [is_encoding, get_state, hr]
  · refine pyCatchRun_fst_congr _ _ ?_
    rcases hsh : requestRaise sh with e | uu
    · simp [record_start_body, hsh]
    · rcases hf : requestRaise f with e | s <;>
        simp [record_start_body, get_state, hsh, hf]
  · rw [record_start, pyCatchRun_snd]
    rcases hsh : requestRaise sh with e | uu
    · exact Or.inl (by simp [record_start_body, hsh])
    · rcases hf : requestRaise f with e | s
      · exact Or.inl (by simp [record_start_body, get_state, hsh, hf])
      · exact Or.inr ⟨s, rfl, by simp [record_start_body, get_state, hsh, hf]⟩
  · refine pyCatchRun_fst_congr _ _ ?_
    rcases hsh : requestRaise sh with e | uu
    · simp [record_stop_body, hsh]
    · simp only [record_stop_body, hsh]
      exact record_stop_poll_fst_indep oracle 5 c1 c2 0
  · rw [record_stop, pyCatchRun_snd]
    rcases hsh : requestRaise sh with e | uu
    · exact Or.inl (by simp [record_stop_body, hsh])
    · simp only [record_stop_body, hsh]
      exact record_stop_poll_snd_prov oracle 5 c1 0
  · refine pyCatchRun_fst_congr _ _ ?_
    rcases u with _ | ⟨cu, uu⟩
    · simp [power_on_body, usb_enable, sessionFetch]
    · rcases sh with _ | ⟨cs, us⟩
      · simp [power_on_body, usb_enable, set_control_external, sessionFetch]
      · rcases hr3 : requestRaise r3 with e | s <;>
          simp [power_on_body, usb_enable, set_control_external,
            sessionFetch, get_state, hr3]
  · rw [power_on, pyCatchRun_snd]
    rcases u with _ | ⟨cu, uu⟩
    · exact Or.inl (by simp [power_on_body, usb_enable, sessionFetch])
    · rcases sh with _ | ⟨cs, us⟩
      · exact Or.inl (by
          simp [power_on_body, usb_enable, set_control_external, sessionFetch])
      · rcases hr3 : requestRaise r3 with e | s
        · exact Or.inl (by
            simp [power_on_body, usb_enable, set_control_external,
              sessionFetch, get_state, hr3])
        · exact Or.inr ⟨s, rfl, by
            simp [power_on_body, usb_enable, set_control_external,
              sessionFetch, get_state, hr3]⟩
  · exact wait_until_ready_loop_fst_indep T oB oE (T - 500 * 0) 0 c1 c2 rfl
  · exact wait_until_ready_loop_snd_prov T oB oE (T - 500 * 0) 0 c1 rfl

end GoProUSB
